import Mathlib

/-!
# Verification of the DE_Proj job-board ETL pipelines

Shallow embedding of the three provider pipelines (Adzuna, Jooble, RemoteOK)
from `src/Adzuna.py`, `src/Jooble.py`, `src/RemoteOK.py` and `src/db_utils.py`,
together with proofs about the claims of the specification.

The embedding models:
* SHA-256 (as called through `hashlib.sha256(...).hexdigest()`) over `Nat`,
  byte lists and UTF-8 encoded strings;
* a small fragment of the pandas DataFrame operations the scripts use
  (construction from records, `rename`, column access/assignment with
  KeyError on a missing column, `apply`, numeric coercion, `fillna`, `clip`,
  regex-style leading-numeric-token extraction);
* the database connection as an explicit committed/pending table state with
  commit and rollback, failure outcomes drawn from an environment;
* each provider's `main` as a trace of externally visible events.
-/

namespace DEProj

/-! ## SHA-256, from Python's hashlib as invoked in the scripts -/

/-- Truncate to a 32-bit word. -/
def w32 (x : Nat) : Nat := x % 4294967296

/-- 32-bit right rotation. -/
def rotr (n x : Nat) : Nat := w32 ((x >>> n) ||| (x <<< (32 - n)))

/-- Logical right shift. -/
def shr (n x : Nat) : Nat := x >>> n

/-- Bitwise complement within 32 bits. -/
def bnot32 (x : Nat) : Nat := x ^^^ 4294967295

def chWord (x y z : Nat) : Nat := (x &&& y) ^^^ (bnot32 x &&& z)

def majWord (x y z : Nat) : Nat := (x &&& y) ^^^ (x &&& z) ^^^ (y &&& z)

def bigSigma0 (x : Nat) : Nat := rotr 2 x ^^^ rotr 13 x ^^^ rotr 22 x

def bigSigma1 (x : Nat) : Nat := rotr 6 x ^^^ rotr 11 x ^^^ rotr 25 x

def smallSigma0 (x : Nat) : Nat := rotr 7 x ^^^ rotr 18 x ^^^ shr 3 x

def smallSigma1 (x : Nat) : Nat := rotr 17 x ^^^ rotr 19 x ^^^ shr 10 x

/-- The 64 SHA-256 round constants. -/
def shaK : List Nat :=
  [1116352408, 1899447441, 3049323471, 3921009573, 961987163,
   1508970993, 2453635748, 2870763221, 3624381080, 310598401,
   607225278, 1426881987, 1925078388, 2162078206, 2614888103,
   3248222580, 3835390401, 4022224774, 264347078, 604807628,
   770255983, 1249150122, 1555081692, 1996064986, 2554220882,
   2821834349, 2952996808, 3210313671, 3336571891, 3584528711,
   113926993, 338241895, 666307205, 773529912, 1294757372,
   1396182291, 1695183700, 1986661051, 2177026350, 2456956037,
   2730485921, 2820302411, 3259730800, 3345764771, 3516065817,
   3600352804, 4094571909, 275423344, 430227734, 506948616,
   659060556, 883997877, 958139571, 1322822218, 1537002063,
   1747873779, 1955562222, 2024104815, 2227730452, 2361852424,
   2428436474, 2756734187, 3204031479, 3329325298]

/-- Initial SHA-256 hash state. -/
def shaH0 : List Nat :=
  [1779033703, 3144134277, 1013904242,
   2773480762, 1359893119, 2600822924,
   528734635, 1541459225]

/-- Group a byte list into big-endian 32-bit words. -/
def bytesToWords : List Nat → List Nat
  | b0 :: b1 :: b2 :: b3 :: rest =>
      (((b0 * 256 + b1) * 256 + b2) * 256 + b3) :: bytesToWords rest
  | _ => []

/-- Extend 16 message words to the 64-entry message schedule. -/
def msgSchedule (ws : Array Nat) : Array Nat :=
  (List.range 48).foldl (fun a _ =>
    let t := a.size
    a.push (w32 (smallSigma1 (a.getD (t - 2) 0) + a.getD (t - 7) 0 +
                 smallSigma0 (a.getD (t - 15) 0) + a.getD (t - 16) 0))) ws

/-- One SHA-256 compression round over the running 8-word state. -/
def shaRound (ws : Array Nat) (s : List Nat) (t : Nat) : List Nat :=
  match s with
  | [a, b, c, d, e, f, g, hh] =>
      let t1 := w32 (hh + bigSigma1 e + chWord e f g + shaK.getD t 0 + ws.getD t 0)
      let t2 := w32 (bigSigma0 a + majWord a b c)
      [w32 (t1 + t2), a, b, c, w32 (d + t1), e, f, g]
  | _ => s

/-- Compress one 64-byte block into the hash state. -/
def compressBlock (h : List Nat) (block : List Nat) : List Nat :=
  let ws := msgSchedule (Array.mk (bytesToWords block))
  let s := (List.range 64).foldl (shaRound ws) h
  h.zipWith (fun x y => w32 (x + y)) s

/-- Big-endian byte expansion of an n-byte quantity. -/
def beBytes (count x : Nat) : List Nat :=
  (List.range count).map (fun i => (x >>> (8 * (count - 1 - i))) % 256)

/-- SHA-256 padding: 0x80, zeros to 56 mod 64, 8-byte big-endian bit length. -/
def padMsg (msg : List Nat) : List Nat :=
  let len := msg.length
  let zeros := (119 - len % 64) % 64
  msg ++ [128] ++ List.replicate zeros 0 ++ beBytes 8 (len * 8)

/-- SHA-256 digest of a byte list, as 32 bytes. -/
def sha256 (msg : List Nat) : List Nat :=
  let padded := padMsg msg
  let nblocks := padded.length / 64
  let h := (List.range nblocks).foldl
    (fun h i => compressBlock h ((padded.drop (64 * i)).take 64)) shaH0
  h.flatMap (beBytes 4)

/-- Lowercase hex encoding of a byte list, as produced by hexdigest. -/
def hexEncode (bytes : List Nat) : String :=
  let hexChars := "0123456789abcdef".toList
  String.mk (bytes.flatMap (fun b => [hexChars.getD (b / 16) '0', hexChars.getD (b % 16) '0']))

/-- UTF-8 encoding of a single unicode code point. -/
def utf8Char (n : Nat) : List Nat :=
  if n < 128 then [n]
  else if n < 2048 then [192 + n / 64, 128 + n % 64]
  else if n < 65536 then [224 + n / 4096, 128 + (n / 64) % 64, 128 + n % 64]
  else [240 + n / 262144, 128 + (n / 4096) % 64, 128 + (n / 64) % 64, 128 + n % 64]

/-- UTF-8 encoding of a string, as `.encode()` produces in Python. -/
def utf8Encode (s : String) : List Nat :=
  s.data.flatMap (fun c => utf8Char c.toNat)

/-- hashlib.sha256(s.encode()).hexdigest() -/
def sha256HexOfString (s : String) : String :=
  hexEncode (sha256 (utf8Encode s))

set_option maxRecDepth 100000

/-! ## Python values, records and a fragment of pandas

Numeric JSON values are modelled as integers (the salary claims are about
integer bounds; the round-to-0-decimals step of the Adzuna cleaning is the
identity on integers). A missing cell, NaN and NaT are all modelled by vNull.
-/

/-- A Python/JSON value as it flows through the scripts. -/
inductive Val where
  | vNull
  | vStr (s : String)
  | vInt (n : Int)
  | vList (xs : List Val)
  | vDict (fs : List (String × Val))
deriving Repr

mutual

/-- Structural equality test on values. -/
def beqVal : Val → Val → Bool
  | .vNull, .vNull => true
  | .vStr a, .vStr b => a == b
  | .vInt a, .vInt b => a == b
  | .vList xs, .vList ys => beqValList xs ys
  | .vDict fs, .vDict gs => beqValFields fs gs
  | _, _ => false

def beqValList : List Val → List Val → Bool
  | [], [] => true
  | x :: xs, y :: ys => beqVal x y && beqValList xs ys
  | _, _ => false

def beqValFields : List (String × Val) → List (String × Val) → Bool
  | [], [] => true
  | (k, v) :: fs, (l, w) :: gs => k == l && beqVal v w && beqValFields fs gs
  | _, _ => false

end

mutual

/-- Decidable equality on values, written by hand because the derive
handler does not support this nested inductive. -/
def decEqVal : (a b : Val) → Decidable (a = b)
  | .vNull, .vNull => isTrue rfl
  | .vNull, .vStr _ => isFalse (fun h => Val.noConfusion h)
  | .vNull, .vInt _ => isFalse (fun h => Val.noConfusion h)
  | .vNull, .vList _ => isFalse (fun h => Val.noConfusion h)
  | .vNull, .vDict _ => isFalse (fun h => Val.noConfusion h)
  | .vStr _, .vNull => isFalse (fun h => Val.noConfusion h)
  | .vStr a, .vStr b =>
      match decEq a b with
      | isTrue h => isTrue (h ▸ rfl)
      | isFalse h => isFalse (fun hh => h (Val.vStr.inj hh))
  | .vStr _, .vInt _ => isFalse (fun h => Val.noConfusion h)
  | .vStr _, .vList _ => isFalse (fun h => Val.noConfusion h)
  | .vStr _, .vDict _ => isFalse (fun h => Val.noConfusion h)
  | .vInt _, .vNull => isFalse (fun h => Val.noConfusion h)
  | .vInt _, .vStr _ => isFalse (fun h => Val.noConfusion h)
  | .vInt a, .vInt b =>
      match decEq a b with
      | isTrue h => isTrue (h ▸ rfl)
      | isFalse h => isFalse (fun hh => h (Val.vInt.inj hh))
  | .vInt _, .vList _ => isFalse (fun h => Val.noConfusion h)
  | .vInt _, .vDict _ => isFalse (fun h => Val.noConfusion h)
  | .vList _, .vNull => isFalse (fun h => Val.noConfusion h)
  | .vList _, .vStr _ => isFalse (fun h => Val.noConfusion h)
  | .vList _, .vInt _ => isFalse (fun h => Val.noConfusion h)
  | .vList xs, .vList ys =>
      match decEqValList xs ys with
      | isTrue h => isTrue (h ▸ rfl)
      | isFalse h => isFalse (fun hh => h (Val.vList.inj hh))
  | .vList _, .vDict _ => isFalse (fun h => Val.noConfusion h)
  | .vDict _, .vNull => isFalse (fun h => Val.noConfusion h)
  | .vDict _, .vStr _ => isFalse (fun h => Val.noConfusion h)
  | .vDict _, .vInt _ => isFalse (fun h => Val.noConfusion h)
  | .vDict _, .vList _ => isFalse (fun h => Val.noConfusion h)
  | .vDict fs, .vDict gs =>
      match decEqValFields fs gs with
      | isTrue h => isTrue (h ▸ rfl)
      | isFalse h => isFalse (fun hh => h (Val.vDict.inj hh))

def decEqValList : (a b : List Val) → Decidable (a = b)
  | [], [] => isTrue rfl
  | [], _ :: _ => isFalse (fun h => List.noConfusion h)
  | _ :: _, [] => isFalse (fun h => List.noConfusion h)
  | x :: xs, y :: ys =>
      match decEqVal x y, decEqValList xs ys with
      | isTrue h1, isTrue h2 => isTrue (h1 ▸ h2 ▸ rfl)
      | isFalse h1, _ => isFalse (fun hh => h1 (List.head_eq_of_cons_eq hh))
      | _, isFalse h2 => isFalse (fun hh => h2 (List.tail_eq_of_cons_eq hh))

def decEqValFields : (a b : List (String × Val)) → Decidable (a = b)
  | [], [] => isTrue rfl
  | [], _ :: _ => isFalse (fun h => List.noConfusion h)
  | _ :: _, [] => isFalse (fun h => List.noConfusion h)
  | (k, v) :: fs, (l, w) :: gs =>
      match decEq k l, decEqVal v w, decEqValFields fs gs with
      | isTrue h1, isTrue h2, isTrue h3 =>
          isTrue (by rw [h1, h2, h3])
      | isFalse h1, _, _ =>
          isFalse (fun hh => h1 (congrArg Prod.fst (List.head_eq_of_cons_eq hh)))
      | _, isFalse h2, _ =>
          isFalse (fun hh => h2 (congrArg Prod.snd (List.head_eq_of_cons_eq hh)))
      | _, _, isFalse h3 => isFalse (fun hh => h3 (List.tail_eq_of_cons_eq hh))

end

instance : DecidableEq Val := decEqVal

instance {ε α : Type} [DecidableEq ε] [DecidableEq α] : DecidableEq (Except ε α) :=
  fun a b =>
    match a, b with
    | .ok x, .ok y =>
        match decEq x y with
        | isTrue h => isTrue (h ▸ rfl)
        | isFalse h => isFalse (fun hh => h (Except.ok.inj hh))
    | .error x, .error y =>
        match decEq x y with
        | isTrue h => isTrue (h ▸ rfl)
        | isFalse h => isFalse (fun hh => h (Except.error.inj hh))
    | .ok _, .error _ => isFalse (fun h => Except.noConfusion h)
    | .error _, .ok _ => isFalse (fun h => Except.noConfusion h)

/-- An exception as raised by the Python code. -/
inductive PyErr where
  | keyError (k : String)
  | valueError (msg : String)
  | attrError (msg : String)
deriving Repr, DecidableEq

/-- One row of a DataFrame, or one JSON object: an association list. -/
abbrev Rec := List (String × Val)

/-- Reading a cell of a row: a missing binding is a NaN cell. -/
def getCell (r : Rec) (c : String) : Val := ((r.lookup c).getD .vNull)

/-- Writing a cell of a row (replace the binding, or append a new one). -/
def setCell (r : Rec) (c : String) (v : Val) : Rec :=
  if (r.lookup c).isSome then
    r.map (fun kv => if kv.1 = c then (c, v) else kv)
  else r ++ [(c, v)]

/-- Python truthiness, as used by the if-not guards of the fetchers. -/
def pyTruthy : Val → Bool
  | .vNull => false
  | .vStr s => !s.isEmpty
  | .vInt n => n != 0
  | .vList xs => !xs.isEmpty
  | .vDict fs => !fs.isEmpty

mutual

/-- Python str() of a value, as astype(str) and the f-string produce it:
NaN prints as nan, strings print verbatim, integers in decimal. -/
def pyStr : Val → String
  | .vNull => "nan"
  | .vStr s => s
  | .vInt n => toString n
  | .vList xs => "[" ++ pyStrJoin xs ++ "]"
  | .vDict _ => "<dict>"

def pyStrJoin : List Val → String
  | [] => ""
  | [v] => pyStr v
  | v :: vs => pyStr v ++ ", " ++ pyStrJoin vs

end

/-- The join method of a separator string, over a list value of strings
(elements that are not strings make join raise a TypeError in Python;
the feeds only carry string lists, modelled totally by printing them). -/
def pyJoin (sep : String) : Val → String
  | .vList xs => String.intercalate sep (xs.map pyStr)
  | .vStr s => String.intercalate sep (s.data.map (fun c => String.mk [c]))
  | _ => ""

/-- A DataFrame: ordered column labels and rows. -/
structure DF where
  cols : List String
  rows : List Rec
deriving Repr, DecidableEq

/-- pd.DataFrame() -/
def DF.emptyDF : DF := ⟨[], []⟩

/-- A DataFrame is empty when either axis is empty (pandas df.empty). -/
def DF.isEmpty (df : DF) : Bool := df.rows.isEmpty || df.cols.isEmpty

/-- Column labels of a record list, in first-seen order, as
pd.DataFrame(list-of-dicts) assembles them. -/
def unionKeys (rs : List Rec) : List String :=
  rs.foldl (fun acc r =>
    r.foldl (fun acc kv => if kv.1 ∈ acc then acc else acc ++ [kv.1]) acc) []

/-- pd.DataFrame(records) for a list of JSON objects. -/
def DF.ofRecords (rs : List Rec) : DF := ⟨unionKeys rs, rs⟩

/-- Interpret a JSON value as a record (the feeds are lists of objects). -/
def asRecord : Val → Rec
  | .vDict fs => fs
  | _ => []

/-- df.rename(columns = m): relabel columns (and the row bindings). -/
def renameKey (m : List (String × String)) (k : String) : String :=
  ((m.lookup k).getD k)

def DF.rename (df : DF) (m : List (String × String)) : DF :=
  ⟨df.cols.map (renameKey m),
   df.rows.map (fun r => r.map (fun kv => (renameKey m kv.1, kv.2)))⟩

/-- Assign a column from a per-row function (df brackets assignment);
adds the column label when new. -/
def DF.setCol (df : DF) (c : String) (f : Rec → Val) : DF :=
  ⟨if c ∈ df.cols then df.cols else df.cols ++ [c],
   df.rows.map (fun r => setCell r c (f r))⟩

/-- Column read plus apply: df of c assigned from f of the old cell;
raises KeyError when the column is absent, as pandas does. -/
def DF.applyCol (df : DF) (c : String) (f : Val → Val) : Except PyErr DF :=
  if c ∈ df.cols then .ok (df.setCol c (fun r => f (getCell r c)))
  else .error (.keyError c)

/-- Effectful map over a list, stopping at the first raised exception. -/
def mapE {α β : Type} (g : α → Except PyErr β) : List α → Except PyErr (List β)
  | [] => .ok []
  | a :: t => do
      let b ← g a
      let bs ← mapE g t
      .ok (b :: bs)

/-- Column read plus apply with a fallible cell function (an exception
raised on any cell propagates out of the whole column operation). -/
def DF.applyColE (df : DF) (c : String) (f : Val → Except PyErr Val) :
    Except PyErr DF :=
  if c ∈ df.cols then do
    let rows ← mapE (fun r => do
      let v ← f (getCell r c)
      pure (setCell r c v)) df.rows
    .ok ⟨df.cols, rows⟩
  else .error (.keyError c)

/-- df dst column assigned from src column (raises when src is absent). -/
def DF.copyCol (df : DF) (src dst : String) : Except PyErr DF :=
  if src ∈ df.cols then .ok (df.setCol dst (fun r => getCell r src))
  else .error (.keyError src)

/-- The required-columns loop: add each missing column filled with None. -/
def DF.ensureCol (df : DF) (c : String) : DF :=
  if c ∈ df.cols then df else df.setCol c (fun _ => .vNull)

def DF.ensureCols (df : DF) (cs : List String) : DF := cs.foldl DF.ensureCol df

/-- Column projection df of a label list (raises on a missing label). -/
def DF.select (df : DF) (cs : List String) : Except PyErr DF :=
  if cs.all (fun c => c ∈ df.cols) then
    .ok ⟨cs, df.rows.map (fun r => cs.map (fun c => (c, getCell r c)))⟩
  else .error (.keyError "select")

/-! ## Numeric coercion and salary cleaning -/

/-- Decimal digit string to Nat (requires a nonempty all-digit string). -/
def parseNatDigits (s : String) : Option Nat :=
  if s.length > 0 && s.toList.all Char.isDigit then
    some (s.toList.foldl (fun n c => n * 10 + (c.toNat - 48)) 0)
  else none

/-- pd.to_numeric with coerce: numbers pass through, numeric strings parse
(optionally signed), anything else becomes NaN. -/
def toNumeric : Val → Option Int
  | .vInt n => some n
  | .vStr s =>
      if s.startsWith "-" then
        (parseNatDigits (s.drop 1)).map (fun n => -(n : Int))
      else (parseNatDigits s).map (fun n => (n : Int))
  | _ => none

/-- Adzuna salary cleaning (Adzuna.py lines 80 to 84): to_numeric coerce,
fillna 0, round and keep integer, clip into 0 .. 2 ^ 63 - 1. -/
def adzunaCleanSalary (v : Val) : Val :=
  let n := (toNumeric v).getD 0
  .vInt (min (max n 0) 9223372036854775807)

/-- RemoteOK salary cleaning (RemoteOK.py lines 53 and 54): to_numeric
coerce, fillna 0, astype int. No clip and no sign restriction. -/
def remoteokCleanSalary (v : Val) : Val :=
  .vInt ((toNumeric v).getD 0)

/-- Leading token of the regex d [d,.]* : scan to the first digit, then
take that digit and the longest following run of digits, commas, dots. -/
def leadingToken : List Char → Option (List Char)
  | [] => none
  | c :: cs =>
      if c.isDigit then some (c :: cs.takeWhile (fun d => d.isDigit || d == ',' || d == '.'))
      else leadingToken cs

/-- The replace step removing every character that is not a digit or dot. -/
def keepDigitsDot (cs : List Char) : List Char :=
  cs.filter (fun c => c.isDigit || c == '.')

/-- Split a character list on the dot character. -/
def splitOnDot : List Char → List (List Char)
  | [] => [[]]
  | c :: rest =>
      let r := splitOnDot rest
      if c == '.' then [] :: r
      else match r with
        | h :: t => (c :: h) :: t
        | [] => [[c]]

/-- Numeric value of a digit list. -/
def digitsVal (cs : List Char) : Nat :=
  cs.foldl (fun n c => n * 10 + (c.toNat - 48)) 0

/-- Python float() on a digits-and-dots string, truncated as astype(int)
truncates: valid when there is at most one dot and at least one digit;
the value is the integer part. -/
def floatTruncTok (cs : List Char) : Option Nat :=
  match splitOnDot cs with
  | [a] => if a.length > 0 && a.all Char.isDigit then some (digitsVal a) else none
  | [a, b] =>
      if (a.all Char.isDigit && b.all Char.isDigit
          && (a.length + b.length > 0) : Bool) then
        some (digitsVal a)
      else none
  | _ => none

/-- Jooble salary cleaning (Jooble.py lines 47 to 52): astype(str),
str.extract of the leading numeric token (NaN when absent), removal of
non-digit non-dot characters, astype(float) (raising ValueError on a
malformed token), fillna 0, astype(int). -/
def joobleCleanSalary (v : Val) : Except PyErr Val :=
  match leadingToken (pyStr v).toList with
  | none => .ok (.vInt 0)
  | some tok =>
      match floatTruncTok (keepDigitsDot tok) with
      | some n => .ok (.vInt (n : Int))
      | none => .error (.valueError "could not convert string to float")

/-! ## HTTP layer -/

/-- An HTTP response: final status code and parsed JSON body. -/
structure HttpResponse where
  status : Nat
  body : Val

/-- Outcome of one requests call: a response, or a transport error
(connection failure, timeout, too many redirects), which requests raises
as a RequestException. -/
inductive NetResult where
  | gotResponse (r : HttpResponse)
  | transportError (msg : String)

/-- raise_for_status raises HTTPError exactly for 4xx and 5xx statuses,
that is codes in 400 to 599 (per the requests library, which checks
400 <= code < 500 and 500 <= code < 600, and the comment at
RemoteOK.py line 20); any other status is processed as a success. -/
def raisesForStatus (status : Nat) : Bool := 400 ≤ status && status < 600

/-- dict.get(k, default): on a non-dict, Python raises AttributeError. -/
def dictGetD (v : Val) (k : String) (dflt : Val) : Except PyErr Val :=
  match v with
  | .vDict fs => .ok ((fs.lookup k).getD dflt)
  | _ => .error (.attrError "get")

/-! ## Adzuna fetch and transform (Adzuna.py, fetch_adzuna_data) -/

def adzunaRequiredCols : List String :=
  ["api_id", "date_posted", "company", "position",
   "location", "category", "salary_min", "salary_max", "redirect_url"]

def adzunaRename : List (String × String) :=
  [("id", "api_id"), ("created", "date_posted"), ("title", "position"),
   ("salary_min", "salary_min"), ("salary_max", "salary_max"),
   ("redirect_url", "redirect_url")]

/-- The company cell lambda: a dict maps to its display_name, anything
else passes through. -/
def extractDisplayName : Val → Val
  | .vDict fs => getCell fs "display_name"
  | v => v

/-- The location cell lambda: a dict maps to the comma-join of its area
list (defaulted empty), anything else passes through. -/
def extractArea : Val → Val
  | .vDict fs => .vStr (pyJoin ", " ((fs.lookup "area").getD (.vList [])))
  | v => v

/-- The category cell lambda: a dict maps to its label field. -/
def extractLabel : Val → Val
  | .vDict fs => getCell fs "label"
  | v => v

/-- The record normalization of fetch_adzuna_data (Adzuna.py lines 45 to
84): DataFrame construction, renames, nested-field extraction, the
required-columns loop, projection, salary cleaning. -/
def adzunaTransform (recs : List Rec) : Except PyErr DF := do
  let df := (DF.ofRecords recs).rename adzunaRename
  let df ← df.applyCol "company" extractDisplayName
  let df ← df.applyCol "location" extractArea
  let df ← df.applyCol "category" extractLabel
  let df := df.ensureCols adzunaRequiredCols
  let df ← df.select adzunaRequiredCols
  let df ← df.applyCol "salary_min" adzunaCleanSalary
  let df ← df.applyCol "salary_max" adzunaCleanSalary
  .ok df

/-- fetch_adzuna_data, given the outcome of the one requests.get call.
Only RequestException is caught (giving an empty DataFrame); a KeyError
or AttributeError raised by the body handling propagates. -/
def fetch_adzuna_data (net : NetResult) : Except PyErr DF := do
  match net with
  | .transportError _ => .ok DF.emptyDF
  | .gotResponse resp =>
      if raisesForStatus resp.status then .ok DF.emptyDF
      else do
        let jobs ← dictGetD resp.body "results" (.vList [])
        if !pyTruthy jobs then .ok DF.emptyDF
        else adzunaTransform (match jobs with
          | .vList xs => xs.map asRecord
          | _ => [])

/-! ## Jooble fetch and transform (Jooble.py, fetch_jooble_data) -/

def joobleRequiredCols : List String :=
  ["api_id", "date_posted", "company", "position", "location", "tags",
   "salary_min", "salary_max", "url"]

def joobleRename : List (String × String) :=
  [("id", "api_id"), ("updated", "date_posted"), ("title", "position"),
   ("snippet", "tags"), ("salary", "salary_min"), ("link", "url")]

/-- The record normalization of fetch_jooble_data (Jooble.py lines 39 to
61): DataFrame construction, renames, the raw copy of salary_min into
salary_max, the two identical salary cleanings, the required-columns
loop, projection. -/
def joobleTransform (recs : List Rec) : Except PyErr DF := do
  let df := (DF.ofRecords recs).rename joobleRename
  let df ← df.copyCol "salary_min" "salary_max"
  let df ← df.applyColE "salary_min" joobleCleanSalary
  let df ← df.applyColE "salary_max" joobleCleanSalary
  let df := df.ensureCols joobleRequiredCols
  let df ← df.select joobleRequiredCols
  .ok df

/-- fetch_jooble_data, given the outcome of the one requests.post call. -/
def fetch_jooble_data (net : NetResult) : Except PyErr DF := do
  match net with
  | .transportError _ => .ok DF.emptyDF
  | .gotResponse resp =>
      if raisesForStatus resp.status then .ok DF.emptyDF
      else do
        let jobs ← dictGetD resp.body "jobs" (.vList [])
        if !pyTruthy jobs then .ok DF.emptyDF
        else joobleTransform (match jobs with
          | .vList xs => xs.map asRecord
          | _ => [])

/-! ## RemoteOK fetch (RemoteOK.py, fetch_remoteok_data) -/

/-- Python truthiness guard used on each salary: a falsy salary value
(0, None, empty) is replaced by None before numeric coercion. -/
def truthyOrNull (v : Val) : Val := if pyTruthy v then v else .vNull

/-- Dates: pd.to_datetime with coerce followed by tz_localize(None);
a value that does not look like a date becomes NaT. The scripts never
inspect the parsed value, so a date string passes through and anything
not starting with four digits coerces to NaT. -/
def toDatetimeCoerce (v : Val) : Val :=
  match v with
  | .vStr s => if s.length ≥ 4 && (s.toList.take 4).all Char.isDigit then .vStr s else .vNull
  | _ => .vNull

/-- The per-job projection of the RemoteOK fetch loop. -/
def remoteokRecord (job : Rec) : Rec :=
  [("id", getCell job "id"),
   ("date_posted", getCell job "date"),
   ("company", getCell job "company"),
   ("position", getCell job "position"),
   ("location", getCell job "location"),
   ("tags", .vStr (pyJoin ", " ((job.lookup "tags").getD (.vList [])))),
   ("salary_min", truthyOrNull (getCell job "salary_min")),
   ("salary_max", truthyOrNull (getCell job "salary_max")),
   ("url", getCell job "url")]

/-- The record normalization of fetch_remoteok_data (RemoteOK.py lines 29
to 56): the per-job projection loop, DataFrame construction, date
coercion, id stringification, the two salary cleanings. -/
def remoteokTransform (jobs : List Rec) : Except PyErr DF := do
  let df := DF.ofRecords (jobs.map remoteokRecord)
  let df ← df.applyCol "date_posted" toDatetimeCoerce
  let df ← df.applyCol "id" (fun v => .vStr (pyStr v))
  let df ← df.applyCol "salary_min" remoteokCleanSalary
  let df ← df.applyCol "salary_max" remoteokCleanSalary
  .ok df

/-- fetch_remoteok_data, given the outcome of the one requests.get call.
Returns none where the Python returns None (API error or unexpected data
format); the first list element is metadata and is skipped. -/
def fetch_remoteok_data (net : NetResult) : Except PyErr (Option DF) := do
  match net with
  | .transportError _ => .ok none
  | .gotResponse resp =>
      if raisesForStatus resp.status then .ok none
      else
        match resp.body with
        | .vList items =>
            if items.length < 2 then .ok none
            else do
              let df ← remoteokTransform ((items.drop 1).map asRecord)
              .ok (some df)
        | _ => .ok none

/-! ## The surrogate key (Adzuna.py lines 124 to 127, Jooble.py 98 to 101) -/

/-- The identity assigner: hex SHA-256 of the dash-joined triple, exactly
hashlib.sha256 of the encoded f-string, hexdigest. -/
def surrogateKey (company position location : String) : String :=
  sha256HexOfString (company ++ "-" ++ position ++ "-" ++ location)

/-- The surrogate key of one row, with cells formatted as the f-string
formats them. -/
def rowSurrogateKey (r : Rec) : String :=
  surrogateKey (pyStr (getCell r "company")) (pyStr (getCell r "position"))
    (pyStr (getCell r "location"))

/-- The unique_job_id assignment over a whole DataFrame: df.apply of the
hashing lambda (a row subscript raises KeyError when the column is
absent from the frame). -/
def assignUniqueJobId (df : DF) : Except PyErr DF :=
  if ["company", "position", "location"].all (fun c => c ∈ df.cols) then
    .ok (df.setCol "unique_job_id" (fun r => .vStr (rowSurrogateKey r)))
  else .error (.keyError "company")

/-! ## Database connection, transactions and the MERGE upsert -/

/-- One table: whether it exists, its primary key column (from the CREATE
TABLE statement), and its rows. -/
structure DB where
  tableExists : Bool
  keyCol : String
  rows : List Rec
deriving Repr, DecidableEq

/-- A connection holds the last committed state and the pending
(uncommitted) state of the current transaction. -/
structure Conn where
  committed : DB
  pending : DB
deriving Repr, DecidableEq

def Conn.commit (c : Conn) : Conn := ⟨c.pending, c.pending⟩

def Conn.rollback (c : Conn) : Conn := ⟨c.committed, c.committed⟩

/-- IF OBJECT_ID(...) IS NULL BEGIN CREATE TABLE ... END -/
def createTableIfAbsent (key : String) (db : DB) : DB :=
  if db.tableExists then db else ⟨true, key, []⟩

/-- One MERGE of a source row: when a target row matches on the key
column, overwrite it; otherwise insert. -/
def mergeRow (key : String) (tbl : List Rec) (r : Rec) : List Rec :=
  if tbl.any (fun t => beqVal (getCell t key) (getCell r key)) then
    tbl.map (fun t => if beqVal (getCell t key) (getCell r key) then r else t)
  else tbl ++ [r]

/-- cursor.executemany of the MERGE over the whole batch. -/
def mergeRows (key : String) (tbl : List Rec) (rs : List Rec) : List Rec :=
  rs.foldl (mergeRow key) tbl

/-- Which of the two SQL statements of a load step fail in this run; an
upsert failure happens after some number of source rows were applied to
the uncommitted state. -/
structure SqlEnv where
  createFails : Bool
  upsertFailsAt : Option Nat
deriving Repr

inductive LoadOutcome where
  | skippedEmpty
  | completed
  | sqlError
deriving Repr, DecidableEq

/-- Database-side events of a load step. -/
inductive Ev where
  | evConfigRead
  | evDbConnect
  | evNet
  | evCreateTable
  | evCommit
  | evExecMerge
  | evRollback
  | evCloseCursor
  | evCloseConn
deriving Repr, DecidableEq

/-- Generic body shared by the three load functions: empty guard
(present in Adzuna and Jooble only), create-commit, batch preparation,
executemany MERGE, commit; any failure is caught, printed and rolled
back; the cursor is closed in the finally block. -/
def loadStep (checkEmpty : Bool) (key : String)
    (prepare : DF → Except PyErr (List Rec))
    (df : DF) (conn : Conn) (env : SqlEnv) : Conn × LoadOutcome × List Ev :=
  if checkEmpty && df.isEmpty then (conn, .skippedEmpty, [])
  else if env.createFails then
    (conn.rollback, .sqlError, [.evCreateTable, .evRollback, .evCloseCursor])
  else
    let conn := Conn.commit { conn with pending := createTableIfAbsent key conn.pending }
    match prepare df with
    | .error _ =>
        (conn.rollback, .sqlError,
         [.evCreateTable, .evCommit, .evRollback, .evCloseCursor])
    | .ok batch =>
        match env.upsertFailsAt with
        | some k =>
            let conn := { conn with pending :=
              { conn.pending with rows := mergeRows key conn.pending.rows (batch.take k) } }
            (conn.rollback, .sqlError,
             [.evCreateTable, .evCommit, .evExecMerge, .evRollback, .evCloseCursor])
        | none =>
            let conn := Conn.commit { conn with pending :=
              { conn.pending with rows := mergeRows key conn.pending.rows batch } }
            (conn, .completed,
             [.evCreateTable, .evCommit, .evExecMerge, .evCommit, .evCloseCursor])

def adzunaLoadCols : List String :=
  ["unique_job_id", "api_id", "date_posted", "company", "position",
   "location", "category", "salary_min", "salary_max", "redirect_url"]

/-- The batch the Adzuna load hands to executemany: key assignment then
column projection (Adzuna.py lines 124 to 146). -/
def adzunaPrepare (df : DF) : Except PyErr (List Rec) := do
  let df ← assignUniqueJobId df
  let df ← df.select adzunaLoadCols
  .ok df.rows

/-- load_adzuna_to_sql: empty guard, AdzunaJobs creation keyed by
unique_job_id, key assignment, column projection, batched MERGE. -/
def load_adzuna_to_sql (df : DF) (conn : Conn) (env : SqlEnv) :
    Conn × LoadOutcome × List Ev :=
  loadStep true "unique_job_id" adzunaPrepare df conn env

def joobleLoadCols : List String :=
  ["unique_job_id", "api_id", "date_posted", "company", "position",
   "location", "tags", "salary_min", "salary_max", "url"]

/-- The batch the Jooble load hands to executemany: key assignment then
column projection (Jooble.py lines 98 to 119). -/
def jooblePrepare (df : DF) : Except PyErr (List Rec) := do
  let df ← assignUniqueJobId df
  let df ← df.select joobleLoadCols
  .ok df.rows

/-- load_jooble_to_sql: empty guard, JoobleJobs creation keyed by
unique_job_id, key assignment, column projection, batched MERGE. -/
def load_jooble_to_sql (df : DF) (conn : Conn) (env : SqlEnv) :
    Conn × LoadOutcome × List Ev :=
  loadStep true "unique_job_id" jooblePrepare df conn env

/-- The batch the RemoteOK load hands to executemany: the frame rows as
they are (RemoteOK.py line 152). -/
def remoteokPrepare (df : DF) : Except PyErr (List Rec) := .ok df.rows

/-- load_data_to_sql of RemoteOK.py: no empty guard, RemoteOKJobs
creation keyed by the provider id column, batched MERGE on id. -/
def load_data_to_sql (df : DF) (conn : Conn) (env : SqlEnv) :
    Conn × LoadOutcome × List Ev :=
  loadStep false "id" remoteokPrepare df conn env

/-! ## Pipeline drivers -/

/-- How reading config.ini goes: readable and parsable, missing or
unreadable file, or a parse error. A readable config is assumed to hold
the sections the scripts index. -/
inductive ConfigOutcome where
  | configOk
  | missingFile
  | malformed
deriving Repr, DecidableEq

/-- The environment one pipeline run observes. -/
structure Env where
  config : ConfigOutcome
  dbOk : Bool
  net : NetResult
  sql : SqlEnv
  conn0 : Conn

/-- How the process run ends: a normal return, or an uncaught exception. -/
inductive RunResult where
  | finished
  | crashed (e : PyErr)
deriving Repr, DecidableEq

/-- main of Adzuna.py: get_config (abort when None), connect (abort when
None), fetch, to_datetime on the date column, load; the connection is
closed in the finally block; no except clause, so an exception from the
body escapes after the close. -/
def adzunaMain (env : Env) : List Ev × Conn × RunResult :=
  if env.config ≠ .configOk then ([.evConfigRead], env.conn0, .finished)
  else if !env.dbOk then ([.evConfigRead, .evDbConnect], env.conn0, .finished)
  else
    match fetch_adzuna_data env.net with
    | .error e => ([.evConfigRead, .evDbConnect, .evNet, .evCloseConn], env.conn0, .crashed e)
    | .ok df =>
        match df.applyCol "date_posted" toDatetimeCoerce with
        | .error e =>
            ([.evConfigRead, .evDbConnect, .evNet, .evCloseConn], env.conn0, .crashed e)
        | .ok df2 =>
            let (conn, _, evs) := load_adzuna_to_sql df2 env.conn0 env.sql
            ([.evConfigRead, .evDbConnect, .evNet] ++ evs ++ [.evCloseConn], conn, .finished)

/-- main of Jooble.py: as Adzuna, but the try block has an except
KeyError clause, so a KeyError from the body is caught and printed. -/
def joobleMain (env : Env) : List Ev × Conn × RunResult :=
  if env.config ≠ .configOk then ([.evConfigRead], env.conn0, .finished)
  else if !env.dbOk then ([.evConfigRead, .evDbConnect], env.conn0, .finished)
  else
    match fetch_jooble_data env.net with
    | .error (.keyError _) =>
        ([.evConfigRead, .evDbConnect, .evNet, .evCloseConn], env.conn0, .finished)
    | .error e => ([.evConfigRead, .evDbConnect, .evNet, .evCloseConn], env.conn0, .crashed e)
    | .ok df =>
        match df.applyCol "date_posted" toDatetimeCoerce with
        | .error (.keyError _) =>
            ([.evConfigRead, .evDbConnect, .evNet, .evCloseConn], env.conn0, .finished)
        | .error e =>
            ([.evConfigRead, .evDbConnect, .evNet, .evCloseConn], env.conn0, .crashed e)
        | .ok df2 =>
            let (conn, _, evs) := load_jooble_to_sql df2 env.conn0 env.sql
            ([.evConfigRead, .evDbConnect, .evNet] ++ evs ++ [.evCloseConn], conn, .finished)

/-- get_db_connection of RemoteOK.py, which reads the config file itself:
a missing file is swallowed by config.read and the database section
subscript then raises an uncaught KeyError; a parse error is caught and
gives None; a driver failure is caught and gives None. -/
def remoteokGetDbConnection (config : ConfigOutcome) (dbOk : Bool) :
    Except PyErr (Option Unit) × List Ev :=
  match config with
  | .missingFile => (.error (.keyError "database"), [.evConfigRead])
  | .malformed => (.ok none, [.evConfigRead])
  | .configOk =>
      if dbOk then (.ok (some ()), [.evConfigRead, .evDbConnect])
      else (.ok none, [.evConfigRead, .evDbConnect])

/-- main of RemoteOK.py: fetch first (halting when the result is None or
empty), then connect (reading config inside), then load; the connection
is closed in the finally block; no except clause in main. -/
def remoteokMain (env : Env) : List Ev × Conn × RunResult :=
  match fetch_remoteok_data env.net with
  | .error e => ([.evNet], env.conn0, .crashed e)
  | .ok none => ([.evNet], env.conn0, .finished)
  | .ok (some df) =>
      if df.isEmpty then ([.evNet], env.conn0, .finished)
      else
        let (res, connEvs) := remoteokGetDbConnection env.config env.dbOk
        match res with
        | .error e => (.evNet :: connEvs, env.conn0, .crashed e)
        | .ok none => (.evNet :: connEvs, env.conn0, .finished)
        | .ok (some _) =>
            let (conn, _, evs) := load_data_to_sql df env.conn0 env.sql
            (.evNet :: connEvs ++ evs ++ [.evCloseConn], conn, .finished)

/-! ## Concrete fixtures -/

/-- A fresh connection to an empty database. -/
def connInit : Conn := ⟨⟨false, "", []⟩, ⟨false, "", []⟩⟩

/-- A benign SQL environment: no statement fails. -/
def sqlOk : SqlEnv := ⟨false, none⟩

def c1row : Rec :=
  [("company", .vStr "Acme"), ("position", .vStr "Engineer"),
   ("location", .vStr "Remote")]

def c1df : DF := ⟨["company", "position", "location"], [c1row]⟩

def c1outRow : Rec :=
  c1row ++ [("unique_job_id", .vStr (surrogateKey "Acme" "Engineer" "Remote"))]

def c1outDF : DF :=
  ⟨["company", "position", "location", "unique_job_id"], [c1outRow]⟩

def rokMeta : Val := .vDict [("legal", .vStr "meta")]

def rokJob : Val := .vDict
  [("id", .vInt 123), ("date", .vStr "2024-01-02T00:00:00"),
   ("company", .vStr "Acme"), ("position", .vStr "Engineer"),
   ("location", .vStr "Remote"), ("tags", .vList [.vStr "python"]),
   ("salary_min", .vNull), ("salary_max", .vNull), ("url", .vStr "http://x")]

def rokFeed : NetResult := .gotResponse ⟨200, .vList [rokMeta, rokJob]⟩

def envRokOk : Env := ⟨.configOk, true, rokFeed, sqlOk, connInit⟩

def envRokNoConfig : Env := ⟨.missingFile, true, rokFeed, sqlOk, connInit⟩

def c3rokFeed : NetResult :=
  .gotResponse ⟨200, .vList [rokMeta, .vDict [("id", .vInt 9), ("salary_min", .vInt (-100))]]⟩

def c3rokDF : DF := ((fetch_remoteok_data c3rokFeed).toOption.getD none).getD DF.emptyDF

def c3joNet : NetResult :=
  .gotResponse ⟨200, .vDict [("jobs", .vList [.vDict [("salary", .vStr "5000000000")]])]⟩

def c3joDF : DF := (fetch_jooble_data c3joNet).toOption.getD DF.emptyDF

def c6resp : HttpResponse :=
  ⟨303, .vDict [("results", .vList [.vDict
    [("title", .vStr "T"), ("company", .vStr "A"),
     ("location", .vStr "L"), ("category", .vStr "C")]])]⟩

def c6dfAdz : DF := (fetch_adzuna_data (.gotResponse c6resp)).toOption.getD DF.emptyDF

def c6respEmptyAdz : HttpResponse := ⟨200, .vDict [("results", .vList [])]⟩

def c6respEmptyJoo : HttpResponse := ⟨200, .vDict [("jobs", .vList [])]⟩

def c6respShortRok : HttpResponse := ⟨200, .vList [rokMeta]⟩

def c7failBatch : List Rec := [[("title", .vStr "Y")], [("title", .vStr "Z")]]

def c7okBatch : List Rec := [[("title", .vStr "Y"), ("salary", .vStr "10")]]

def c7df : DF := (joobleTransform c7okBatch).toOption.getD DF.emptyDF

def c8envAdz : Env :=
  ⟨.configOk, true, .gotResponse ⟨200, .vDict [("results", .vList [])]⟩, sqlOk, connInit⟩

def c8envJoo : Env :=
  ⟨.configOk, true, .gotResponse ⟨200, .vDict [("jobs", .vList [])]⟩, sqlOk, connInit⟩

def c8envRok : Env := ⟨.configOk, true, .gotResponse ⟨200, .vList [rokMeta]⟩, sqlOk, connInit⟩

def c9net : NetResult :=
  .gotResponse ⟨200, .vDict [("jobs", .vList [.vDict
    [("title", .vStr "Data Engineer"), ("salary", .vStr "$50,000 - $70,000")]])]⟩

def c9df : DF := (fetch_jooble_data c9net).toOption.getD DF.emptyDF

def c10net : NetResult :=
  .gotResponse ⟨200, .vDict [("jobs", .vList [.vDict
    [("title", .vStr "Analyst"), ("salary", .vStr "40,000 EUR")]])]⟩

def c10df : DF := (fetch_jooble_data c10net).toOption.getD DF.emptyDF

def c10row : Rec := c10df.rows.getD 0 []

def c4df : DF := ⟨["id"], [[("id", .vStr "a")]]⟩

def c4sqlFail : SqlEnv := ⟨false, some 1⟩

def c5envAdzBad : Env := ⟨.malformed, true, rokFeed, sqlOk, connInit⟩

def c5envAdzOk : Env := ⟨.configOk, true, .transportError "refused", sqlOk, connInit⟩

/-! ## Helper lemmas on records and DataFrames -/

example : sha256HexOfString "abc" =
    "ba7816bf8f01cfea414140de5dae2223b00361a396177a9cb410ff61f20015ad" := by decide

example : sha256HexOfString "" =
    "e3b0c44298fc1c149afbf4c8996fb92427ae41e4649b934ca495991b7852b855" := by decide

theorem lookup_map_replace (r : Rec) (c : String) (v : Val) :
    (r.map (fun kv => if kv.1 = c then (c, v) else kv)).lookup c =
      if (r.lookup c).isSome then some v else none := by
  induction r with
  | nil => simp
  | cons kv t ih =>
      obtain ⟨k, w⟩ := kv
      by_cases h : k = c
      · subst h
        have h1 : ((k, w).1 = k) = True := by simp
        simp only [List.map_cons, h1, if_true]
        simp [List.lookup]
      · have h1 : ((k, w).1 = c) = False := by simp [h]
        have hbeq : (c == k) = false := beq_false_of_ne (Ne.symm h)
        simp only [List.map_cons, h1, if_false]
        simp only [List.lookup, hbeq]
        exact ih

theorem lookup_map_replace_ne (r : Rec) (c c' : String) (v : Val) (h : c' ≠ c) :
    (r.map (fun kv => if kv.1 = c then (c, v) else kv)).lookup c' = r.lookup c' := by
  induction r with
  | nil => simp
  | cons kv t ih =>
      obtain ⟨k, w⟩ := kv
      by_cases hk : k = c
      · subst hk
        have h1 : ((k, w).1 = k) = True := by simp
        have hbeq : (c' == k) = false := beq_false_of_ne h
        simp only [List.map_cons, h1, if_true]
        simp only [List.lookup, hbeq]
        exact ih
      · have h1 : ((k, w).1 = c) = False := by simp [hk]
        simp only [List.map_cons, h1, if_false]
        by_cases hk2 : c' = k
        · subst hk2
          simp [List.lookup]
        · have hbeq : (c' == k) = false := beq_false_of_ne hk2
          simp only [List.lookup, hbeq]
          exact ih

theorem lookup_append_sing_none (r : Rec) (c : String) (v : Val)
    (h : r.lookup c = none) : (r ++ [(c, v)]).lookup c = some v := by
  induction r with
  | nil => simp [List.lookup]
  | cons kv t ih =>
      obtain ⟨k, w⟩ := kv
      by_cases hk : c = k
      · subst hk
        simp [List.lookup] at h
      · have hbeq : (c == k) = false := beq_false_of_ne hk
        simp only [List.lookup, hbeq] at h
        simp only [List.cons_append, List.lookup, hbeq]
        exact ih h

theorem lookup_append_sing_ne (r : Rec) (c c' : String) (v : Val)
    (h : c' ≠ c) : (r ++ [(c, v)]).lookup c' = r.lookup c' := by
  induction r with
  | nil => simp [List.lookup, beq_false_of_ne h]
  | cons kv t ih =>
      obtain ⟨k, w⟩ := kv
      by_cases hk : c' = k
      · subst hk
        simp [List.lookup]
      · have hbeq : (c' == k) = false := beq_false_of_ne hk
        simp only [List.cons_append, List.lookup, hbeq]
        exact ih

theorem getCell_setCell_self (r : Rec) (c : String) (v : Val) :
    getCell (setCell r c v) c = v := by
  unfold getCell setCell
  by_cases h : (r.lookup c).isSome
  · simp [h, lookup_map_replace]
  · have hnone : r.lookup c = none := Option.not_isSome_iff_eq_none.mp h
    simp [h, lookup_append_sing_none r c v hnone]

theorem getCell_setCell_ne (r : Rec) (c c' : String) (v : Val) (h : c' ≠ c) :
    getCell (setCell r c v) c' = getCell r c' := by
  unfold getCell setCell
  by_cases hs : (r.lookup c).isSome
  · simp [hs, lookup_map_replace_ne r c c' v h]
  · simp [hs, lookup_append_sing_ne r c c' v h]

theorem lookup_setCell_isSome (r : Rec) (c c' : String) (v : Val)
    (h : c' = c ∨ (r.lookup c').isSome) :
    ((setCell r c v).lookup c').isSome := by
  unfold setCell
  by_cases hc : c' = c
  · subst hc
    by_cases hs : (r.lookup c').isSome
    · rw [if_pos hs, lookup_map_replace, if_pos hs]
      rfl
    · have hnone : r.lookup c' = none := Option.not_isSome_iff_eq_none.mp hs
      rw [if_neg hs, lookup_append_sing_none r c' v hnone]
      rfl
  · have hsome : (r.lookup c').isSome := h.resolve_left hc
    by_cases hs : (r.lookup c).isSome
    · rw [if_pos hs, lookup_map_replace_ne r c c' v hc]
      exact hsome
    · rw [if_neg hs, lookup_append_sing_ne r c c' v hc]
      exact hsome

theorem lookup_graph (cs : List String) (r : Rec) (c : String) (h : c ∈ cs) :
    ((cs.map (fun c => (c, getCell r c))).lookup c) = some (getCell r c) := by
  induction cs with
  | nil => cases h
  | cons a t ih =>
      by_cases hc : c = a
      · subst hc
        simp [List.lookup]
      · have hbeq : (c == a) = false := beq_false_of_ne hc
        simp only [List.map_cons, List.lookup, hbeq]
        exact ih (by
          cases h with
          | head => exact absurd rfl hc
          | tail _ hh => exact hh)

theorem getCell_graph (cs : List String) (r : Rec) (c : String) (h : c ∈ cs) :
    getCell (cs.map (fun c => (c, getCell r c))) c = getCell r c := by
  have hlg := lookup_graph cs r c h
  unfold getCell at hlg ⊢
  rw [hlg]
  rfl

theorem mapE_ok_forall₂ {α β : Type} (g : α → Except PyErr β) :
    ∀ (l : List α) (l' : List β), mapE g l = .ok l' →
      List.Forall₂ (fun a b => g a = .ok b) l l' := by
  intro l
  induction l with
  | nil =>
      intro l' h
      simp only [mapE] at h
      cases h
      exact .nil
  | cons a t ih =>
      intro l' h
      simp only [mapE] at h
      cases hg : g a with
      | error e => rw [hg] at h; exact absurd h (by simp [Bind.bind, Except.bind])
      | ok b =>
          rw [hg] at h
          cases ht : mapE g t with
          | error e => rw [ht] at h; exact absurd h (by simp [Bind.bind, Except.bind])
          | ok bs =>
              rw [ht] at h
              simp only [Bind.bind, Except.bind, Except.ok.injEq] at h
              cases h
              exact .cons hg (ih bs ht)

theorem forall₂_transfer {α β : Type} {R : α → β → Prop} {P : α → Prop}
    {Q : β → Prop} :
    ∀ {l₁ : List α} {l₂ : List β}, List.Forall₂ R l₁ l₂ →
      (∀ a ∈ l₁, P a) → (∀ a b, P a → R a b → Q b) → ∀ b ∈ l₂, Q b := by
  intro l₁ l₂ h
  induction h with
  | nil => intro _ _ b hb; cases hb
  | cons hr ht ih =>
      intro hp himp b hb
      cases hb with
      | head => exact himp _ _ (hp _ (List.mem_cons_self _ _)) hr
      | tail _ hb =>
          exact ih (fun a ha => hp a (List.mem_cons_of_mem _ ha)) himp b hb

theorem applyCol_ok (df : DF) (c : String) (f : Val → Val) (df' : DF)
    (h : df.applyCol c f = .ok df') :
    df'.cols = df.cols ∧ c ∈ df.cols ∧
    df'.rows = df.rows.map (fun r => setCell r c (f (getCell r c))) := by
  unfold DF.applyCol at h
  split at h
  · cases h
    unfold DF.setCol
    refine ⟨?_, by assumption, rfl⟩
    simp only [if_pos (by assumption : c ∈ df.cols)]
  · cases h

theorem bindCellStep {c : String} {f : Val → Except PyErr Val} {r r' : Rec}
    (h : (do
      let v ← f (getCell r c)
      pure (setCell r c v) : Except PyErr Rec) = Except.ok r') :
    ∃ v, f (getCell r c) = .ok v ∧ r' = setCell r c v := by
  cases hv : f (getCell r c) with
  | error e => rw [hv] at h; exact absurd h (by simp [Bind.bind, Except.bind])
  | ok v =>
      rw [hv] at h
      simp only [Bind.bind, Except.bind, pure, Except.pure, Except.ok.injEq] at h
      exact ⟨v, rfl, h.symm⟩

theorem applyColE_ok (df : DF) (c : String) (f : Val → Except PyErr Val)
    (df' : DF) (h : df.applyColE c f = .ok df') :
    df'.cols = df.cols ∧ c ∈ df.cols ∧
    List.Forall₂ (fun r r' => ∃ v, f (getCell r c) = .ok v ∧ r' = setCell r c v)
      df.rows df'.rows := by
  unfold DF.applyColE at h
  split at h
  · cases hm : mapE (fun r => do
      let v ← f (getCell r c)
      pure (setCell r c v)) df.rows with
    | error e => rw [hm] at h; exact absurd h (by simp [Bind.bind, Except.bind])
    | ok rows =>
        rw [hm] at h
        simp only [Bind.bind, Except.bind, Except.ok.injEq] at h
        have hf := mapE_ok_forall₂ _ df.rows rows hm
        subst h
        exact ⟨rfl, by assumption,
          List.Forall₂.imp (fun a b hab => bindCellStep hab) hf⟩
  · cases h

theorem copyCol_ok (df : DF) (src dst : String) (df' : DF)
    (h : df.copyCol src dst = .ok df') :
    src ∈ df.cols ∧
    df'.cols = (if dst ∈ df.cols then df.cols else df.cols ++ [dst]) ∧
    df'.rows = df.rows.map (fun r => setCell r dst (getCell r src)) := by
  unfold DF.copyCol at h
  split at h
  · cases h
    exact ⟨by assumption, rfl, rfl⟩
  · cases h

theorem select_ok (df : DF) (cs : List String) (df' : DF)
    (h : df.select cs = .ok df') :
    df'.cols = cs ∧
    df'.rows = df.rows.map (fun r => cs.map (fun c => (c, getCell r c))) := by
  unfold DF.select at h
  split at h
  · cases h
    exact ⟨rfl, rfl⟩
  · cases h

theorem ensureCol_cols_mono (df : DF) (c a : String) (ha : a ∈ df.cols) :
    a ∈ (df.ensureCol c).cols := by
  unfold DF.ensureCol DF.setCol
  by_cases hc : c ∈ df.cols
  · rw [if_pos hc]
    exact ha
  · rw [if_neg hc, if_neg hc]
    exact List.mem_append_left _ ha

theorem ensureCol_cell_eq (df : DF) (c a b : String)
    (ha : a ∈ df.cols) (hb : b ∈ df.cols)
    (hinv : ∀ r ∈ df.rows, getCell r a = getCell r b) :
    ∀ r ∈ (df.ensureCol c).rows, getCell r a = getCell r b := by
  unfold DF.ensureCol DF.setCol
  split
  · exact hinv
  · intro r hr
    simp only [List.mem_map] at hr
    obtain ⟨r₀, hr₀, rfl⟩ := hr
    have hca : a ≠ c := fun hh => by subst hh; exact (by assumption : ¬a ∈ df.cols) ha
    have hcb : b ≠ c := fun hh => by subst hh; exact (by assumption : ¬b ∈ df.cols) hb
    rw [getCell_setCell_ne _ _ _ _ hca, getCell_setCell_ne _ _ _ _ hcb]
    exact hinv r₀ hr₀

theorem ensureCols_cell_eq (cs : List String) (df : DF) (a b : String)
    (ha : a ∈ df.cols) (hb : b ∈ df.cols)
    (hinv : ∀ r ∈ df.rows, getCell r a = getCell r b) :
    a ∈ (df.ensureCols cs).cols ∧ b ∈ (df.ensureCols cs).cols ∧
    ∀ r ∈ (df.ensureCols cs).rows, getCell r a = getCell r b := by
  induction cs generalizing df with
  | nil => exact ⟨ha, hb, hinv⟩
  | cons c t ih =>
      have step := ensureCol_cell_eq df c a b ha hb hinv
      exact ih (df.ensureCol c) (ensureCol_cols_mono df c a ha)
        (ensureCol_cols_mono df c b hb) step

/-- Every row assigned by the unique_job_id step carries the surrogate
key of its own (company, position, location) cells. -/
theorem assignUniqueJobId_key (df df' : DF)
    (h : assignUniqueJobId df = .ok df') :
    ∀ r' ∈ df'.rows, getCell r' "unique_job_id" =
      .vStr (surrogateKey (pyStr (getCell r' "company"))
        (pyStr (getCell r' "position")) (pyStr (getCell r' "location"))) := by
  unfold assignUniqueJobId at h
  split at h
  · cases h
    intro r' hr'
    unfold DF.setCol at hr'
    simp only [List.mem_map] at hr'
    obtain ⟨r, _, rfl⟩ := hr'
    rw [getCell_setCell_self,
      getCell_setCell_ne _ _ _ _ (by decide : ("company" : String) ≠ "unique_job_id"),
      getCell_setCell_ne _ _ _ _ (by decide : ("position" : String) ≠ "unique_job_id"),
      getCell_setCell_ne _ _ _ _ (by decide : ("location" : String) ≠ "unique_job_id")]
    rfl
  · cases h

/-- C1 fails in one clause: two differing argument triples whose
dash-joined renditions coincide collide with certainty, not merely with
hash-collision probability, because the join separator also occurs
inside field values. -/
theorem claim_C1_counterexample :
    ("a-b", "c", "d") ≠ (("a", "b-c", "d") : String × String × String) ∧
    surrogateKey "a-b" "c" "d" = surrogateKey "a" "b-c" "d" := by
  exact ⟨by decide, by decide⟩

/-- C1 amended: the identity assigner computes the surrogate key as a
pure function of (company, position, location): the hex-encoded SHA-256
digest of the UTF-8 encoding of the dash-joined string. Every assigned
row carries exactly that key of its own three (formatted) cells, the
key is exactly hexdigest of sha256 of the UTF-8 encoded join, repeated
calls with identical arguments agree, triples whose dash-joined strings
coincide collide with certainty, and a concrete pair of triples with
differing joins yields differing keys. -/
theorem claim_C1_identity_assigner :
    (∀ df df', assignUniqueJobId df = .ok df' → ∀ r' ∈ df'.rows,
        getCell r' "unique_job_id" =
          .vStr (surrogateKey (pyStr (getCell r' "company"))
            (pyStr (getCell r' "position")) (pyStr (getCell r' "location")))) ∧
    (∀ c p l, surrogateKey c p l =
        hexEncode (sha256 (utf8Encode (c ++ "-" ++ p ++ "-" ++ l)))) ∧
    (∀ c p l c' p' l', c = c' → p = p' → l = l' →
        surrogateKey c p l = surrogateKey c' p' l') ∧
    (∀ c p l c' p' l',
        c ++ "-" ++ p ++ "-" ++ l = c' ++ "-" ++ p' ++ "-" ++ l' →
        surrogateKey c p l = surrogateKey c' p' l') ∧
    surrogateKey "a" "b" "c" ≠ surrogateKey "a" "b" "d" := by
  refine ⟨assignUniqueJobId_key, fun c p l => rfl, ?_, ?_, by decide⟩
  · intro c p l c' p' l' h1 h2 h3
    rw [h1, h2, h3]
  · intro c p l c' p' l' h
    unfold surrogateKey
    rw [h]

/-- Witness for C1: the assigner evaluated at a concrete one-row frame. -/
theorem claim_C1_identity_assigner_witness :
    getCell c1outRow "unique_job_id" =
      .vStr (surrogateKey (pyStr (getCell c1outRow "company"))
        (pyStr (getCell c1outRow "position"))
        (pyStr (getCell c1outRow "location"))) :=
  claim_C1_identity_assigner.1 c1df c1outDF (by decide) c1outRow
    (by unfold c1outDF; exact List.mem_singleton_self _)

/-- C9: for a Jooble salary given as free text, normalization extracts
the leading numeric token: on the input string dollar 50,000 dash dollar
70,000 the cell cleaning yields the integer 50000, and the full fetch
of a record carrying that salary produces salary_min 50000. -/
theorem claim_C9_jooble_free_text_salary :
    joobleCleanSalary (.vStr "$50,000 - $70,000") = .ok (.vInt 50000) ∧
    c9df.rows.map (fun r => getCell r "salary_min") = [.vInt 50000] := by
  exact ⟨by decide, by decide⟩

/-- C3 fails as stated: RemoteOK normalization passes a negative salary
through unchanged (violating non-negativity), and Jooble normalization
keeps a value exceeding the 32-bit bound (no clamp is applied). -/
theorem claim_C3_counterexample :
    c3rokDF.rows.map (fun r => getCell r "salary_min") = [.vInt (-100)] ∧
    ((-100 : Int) < 0) ∧
    c3joDF.rows.map (fun r => getCell r "salary_min") = [.vInt 5000000000] ∧
    ((2 : Int) ^ 31 - 1 < 5000000000) := by
  exact ⟨by decide, by decide, by decide, by decide⟩

/-- C3 amended: Adzuna salaries are clamped into 0 .. 2 ^ 63 - 1 with
absent values as 0; Jooble salaries, when cleaning succeeds, are
non-negative integers with absent values as 0 (no 32-bit clamp);
RemoteOK salaries are integers with absent values as 0 (no sign or
range restriction). -/
theorem claim_C3_amended :
    (∀ v, ∃ n : Int, adzunaCleanSalary v = .vInt n ∧ 0 ≤ n ∧ n ≤ 2 ^ 63 - 1) ∧
    adzunaCleanSalary .vNull = .vInt 0 ∧
    (∀ v w, joobleCleanSalary v = .ok w → ∃ n : Int, w = .vInt n ∧ 0 ≤ n) ∧
    joobleCleanSalary .vNull = .ok (.vInt 0) ∧
    (∀ v, ∃ n : Int, remoteokCleanSalary v = .vInt n) ∧
    remoteokCleanSalary .vNull = .vInt 0 := by
  refine ⟨?_, by decide, ?_, by decide, ?_, by decide⟩
  · intro v
    refine ⟨min (max ((toNumeric v).getD 0) 0) 9223372036854775807, rfl, ?_, ?_⟩
    · exact le_min (le_max_right _ _) (by norm_num)
    · have h := min_le_right (max ((toNumeric v).getD 0) 0) (9223372036854775807 : Int)
      calc min (max ((toNumeric v).getD 0) 0) 9223372036854775807
          ≤ (9223372036854775807 : Int) := h
        _ ≤ 2 ^ 63 - 1 := by norm_num
  · intro v w h
    unfold joobleCleanSalary at h
    rcases htok : leadingToken (pyStr v).toList with _ | tok
    · rw [htok] at h
      cases h
      exact ⟨0, rfl, le_refl 0⟩
    · rw [htok] at h
      dsimp only at h
      rcases hft : floatTruncTok (keepDigitsDot tok) with _ | n
      · rw [hft] at h
        cases h
      · rw [hft] at h
        cases h
        exact ⟨(n : Int), rfl, Int.ofNat_nonneg n⟩
  · intro v
    exact ⟨(toNumeric v).getD 0, rfl⟩

/-- Witness for C3 amended at concrete salary inputs. -/
theorem claim_C3_amended_witness :
    joobleCleanSalary (.vStr "7") = .ok (.vInt 7) ∧
    (∃ n : Int, (Val.vInt 7) = .vInt n ∧ 0 ≤ n) :=
  ⟨by decide, claim_C3_amended.2.2.1 (.vStr "7") (.vInt 7) (by decide)⟩

/-- C6 fails as stated: the status check raises only for 4xx and 5xx
(per requests and the comment at RemoteOK.py line 20), so a non-2xx 303
response whose body lists one job makes the Adzuna fetcher return one
record, not an empty result set. -/
theorem claim_C6_counterexample :
    c6resp.status / 100 ≠ 2 ∧
    c6dfAdz.rows.length = 1 := by
  exact ⟨by decide, by decide⟩

/-- C6 amended: for every provider fetcher, an HTTP status in 400 to
599 (a 4xx or 5xx) or a transport error is caught and an empty result
set is returned (for RemoteOK, the None return carrying zero records),
and a successful response listing zero jobs also returns an empty
result set. -/
theorem claim_C6_amended :
    (∀ msg, fetch_adzuna_data (.transportError msg) = .ok DF.emptyDF) ∧
    (∀ resp : HttpResponse, 400 ≤ resp.status → resp.status < 600 →
        fetch_adzuna_data (.gotResponse resp) = .ok DF.emptyDF) ∧
    (∀ resp : HttpResponse, resp.status < 400 →
        dictGetD resp.body "results" (.vList []) = .ok (.vList []) →
        fetch_adzuna_data (.gotResponse resp) = .ok DF.emptyDF) ∧
    (∀ msg, fetch_jooble_data (.transportError msg) = .ok DF.emptyDF) ∧
    (∀ resp : HttpResponse, 400 ≤ resp.status → resp.status < 600 →
        fetch_jooble_data (.gotResponse resp) = .ok DF.emptyDF) ∧
    (∀ resp : HttpResponse, resp.status < 400 →
        dictGetD resp.body "jobs" (.vList []) = .ok (.vList []) →
        fetch_jooble_data (.gotResponse resp) = .ok DF.emptyDF) ∧
    (∀ msg, fetch_remoteok_data (.transportError msg) = .ok none) ∧
    (∀ resp : HttpResponse, 400 ≤ resp.status → resp.status < 600 →
        fetch_remoteok_data (.gotResponse resp) = .ok none) ∧
    (∀ (resp : HttpResponse) (items : List Val), resp.status < 400 →
        resp.body = .vList items → items.length < 2 →
        fetch_remoteok_data (.gotResponse resp) = .ok none) := by
  have hraise : ∀ s : Nat, 400 ≤ s → s < 600 → raisesForStatus s = true := by
    intro s h1 h2
    unfold raisesForStatus
    rw [decide_eq_true h1, decide_eq_true h2]
    rfl
  have hnoraise : ∀ s : Nat, s < 400 → raisesForStatus s = false := by
    intro s hs
    unfold raisesForStatus
    rw [decide_eq_false (Nat.not_le_of_lt hs)]
    rfl
  refine ⟨fun msg => rfl, ?_, ?_, fun msg => rfl, ?_, ?_, fun msg => rfl, ?_, ?_⟩
  · intro resp h1 h2
    unfold fetch_adzuna_data
    dsimp only
    rw [hraise resp.status h1 h2]
    rfl
  · intro resp h hres
    unfold fetch_adzuna_data
    dsimp only
    rw [hnoraise resp.status h]
    simp only [Bind.bind, Except.bind, hres, if_neg]
    rfl
  · intro resp h1 h2
    unfold fetch_jooble_data
    dsimp only
    rw [hraise resp.status h1 h2]
    rfl
  · intro resp h hres
    unfold fetch_jooble_data
    dsimp only
    rw [hnoraise resp.status h]
    simp only [Bind.bind, Except.bind, hres, if_neg]
    rfl
  · intro resp h1 h2
    unfold fetch_remoteok_data
    dsimp only
    rw [hraise resp.status h1 h2]
    rfl
  · intro resp items h hbody hlen
    unfold fetch_remoteok_data
    dsimp only
    rw [hnoraise resp.status h, hbody]
    simp [hlen]

/-- Witness for C6 amended at concrete responses. -/
theorem claim_C6_amended_witness :
    (400 ≤ (503 : Nat) ∧ (503 : Nat) < 600) ∧
    fetch_adzuna_data (.gotResponse ⟨503, .vNull⟩) = .ok DF.emptyDF ∧
    fetch_jooble_data (.gotResponse c6respEmptyJoo) = .ok DF.emptyDF ∧
    fetch_remoteok_data (.gotResponse c6respShortRok) = .ok none :=
  ⟨⟨by decide, by decide⟩,
   claim_C6_amended.2.1 ⟨503, .vNull⟩ (by decide) (by decide),
   claim_C6_amended.2.2.2.2.2.1 c6respEmptyJoo (by decide) (by decide),
   claim_C6_amended.2.2.2.2.2.2.2.2 c6respShortRok [rokMeta] (by decide) (by decide) (by decide)⟩

theorem bind_ok_inv {α β : Type} {e : Except PyErr α} {k : α → Except PyErr β}
    {b : β} (h : (e >>= k) = .ok b) : ∃ a, e = .ok a ∧ k a = .ok b := by
  cases e with
  | error i => exact absurd h (by simp [Bind.bind, Except.bind])
  | ok a => exact ⟨a, rfl, by simpa [Bind.bind, Except.bind] using h⟩

/-- Membership in the column list survives the whole required-columns
loop. -/
theorem ensureCols_cols_mono (cs : List String) (df : DF) (a : String)
    (ha : a ∈ df.cols) : a ∈ (df.ensureCols cs).cols := by
  induction cs generalizing df with
  | nil => exact ha
  | cons c t ih => exact ih (df.ensureCol c) (ensureCol_cols_mono df c a ha)

/-- The destination column is present after a column assignment. -/
theorem setCol_dst_mem (df : DF) (c : String) (f : Rec → Val) :
    c ∈ (df.setCol c f).cols := by
  unfold DF.setCol
  by_cases hc : c ∈ df.cols
  · rw [if_pos hc]
    exact hc
  · rw [if_neg hc]
    exact List.mem_append_right _ (List.mem_singleton_self c)

/-- A successful Adzuna normalization outputs exactly the required
columns, and every output row binds every required column. -/
theorem adzunaTransform_cols (recs : List Rec) (df : DF)
    (h : adzunaTransform recs = .ok df) :
    df.cols = adzunaRequiredCols ∧
    ∀ r ∈ df.rows, ∀ c ∈ adzunaRequiredCols, (r.lookup c).isSome := by
  unfold adzunaTransform at h
  obtain ⟨df1, h1, h⟩ := bind_ok_inv h
  obtain ⟨df2, h2, h⟩ := bind_ok_inv h
  obtain ⟨df3, h3, h⟩ := bind_ok_inv h
  obtain ⟨df5, h4, h⟩ := bind_ok_inv h
  obtain ⟨df6, h5, h⟩ := bind_ok_inv h
  obtain ⟨df7, h6, h⟩ := bind_ok_inv h
  cases h
  obtain ⟨hsel_cols, hsel_rows⟩ := select_ok _ _ _ h4
  obtain ⟨h5cols, _, h5rows⟩ := applyCol_ok _ _ _ _ h5
  obtain ⟨h6cols, _, h6rows⟩ := applyCol_ok _ _ _ _ h6
  constructor
  · rw [h6cols, h5cols, hsel_cols]
  · intro r hr c hc
    rw [h6rows] at hr
    simp only [List.mem_map] at hr
    obtain ⟨r6, hr6, rfl⟩ := hr
    rw [h5rows] at hr6
    simp only [List.mem_map] at hr6
    obtain ⟨r5, hr5, rfl⟩ := hr6
    rw [hsel_rows] at hr5
    simp only [List.mem_map] at hr5
    obtain ⟨r4, _, rfl⟩ := hr5
    apply lookup_setCell_isSome
    right
    apply lookup_setCell_isSome
    right
    rw [lookup_graph _ _ _ hc]
    rfl

/-- A successful Jooble normalization outputs exactly the required
columns, and every output row binds every required column. -/
theorem joobleTransform_cols (recs : List Rec) (df : DF)
    (h : joobleTransform recs = .ok df) :
    df.cols = joobleRequiredCols ∧
    ∀ r ∈ df.rows, ∀ c ∈ joobleRequiredCols, (r.lookup c).isSome := by
  unfold joobleTransform at h
  obtain ⟨df1, h1, h⟩ := bind_ok_inv h
  obtain ⟨df2, h2, h⟩ := bind_ok_inv h
  obtain ⟨df3, h3, h⟩ := bind_ok_inv h
  obtain ⟨df5, h4, h⟩ := bind_ok_inv h
  cases h
  obtain ⟨hsel_cols, hsel_rows⟩ := select_ok _ _ _ h4
  constructor
  · exact hsel_cols
  · intro r hr c hc
    rw [hsel_rows] at hr
    simp only [List.mem_map] at hr
    obtain ⟨r4, _, rfl⟩ := hr
    rw [lookup_graph _ _ _ hc]
    rfl

/-- C7 fails as stated: a Jooble batch of one record that lacks the
salary field aborts the whole normalization with a KeyError (the column
subscript for the salary copy), instead of proceeding with a default in
the failed field. -/
theorem claim_C7_counterexample :
    fetch_jooble_data (.gotResponse ⟨200,
      .vDict [("jobs", .vList [.vDict [("title", .vStr "X")]])]⟩) =
      .error (.keyError "salary_min") := by decide

/-- C7 amended: when normalization returns a frame, every required
output column exists in it and is bound in every row, with null where
the provider never supplied the field (concretely, a record giving only
title and salary normalizes with null company, location, api_id,
date_posted, tags and url); but a column absent from every record of
the batch aborts the whole batch with a KeyError rather than degrading
per record (concretely, a two-record Jooble batch without any salary
raises). -/
theorem claim_C7_amended :
    (∀ recs df, adzunaTransform recs = .ok df → df.cols = adzunaRequiredCols ∧
        ∀ r ∈ df.rows, ∀ c ∈ adzunaRequiredCols, (r.lookup c).isSome) ∧
    (∀ recs df, joobleTransform recs = .ok df → df.cols = joobleRequiredCols ∧
        ∀ r ∈ df.rows, ∀ c ∈ joobleRequiredCols, (r.lookup c).isSome) ∧
    c7df.rows.map (fun r =>
      (getCell r "company", getCell r "location", getCell r "api_id",
       getCell r "date_posted", getCell r "tags", getCell r "url")) =
      [(.vNull, .vNull, .vNull, .vNull, .vNull, .vNull)] ∧
    joobleTransform c7failBatch = .error (.keyError "salary_min") := by
  exact ⟨adzunaTransform_cols, joobleTransform_cols, by decide, by decide⟩

/-- Witness for C7 amended: the universal clauses evaluated at the
concrete one-record batch. -/
theorem claim_C7_amended_witness :
    joobleTransform c7okBatch = .ok c7df ∧ c7df.cols = joobleRequiredCols :=
  ⟨by decide, (claim_C7_amended.2.1 c7okBatch c7df (by decide)).1⟩

/-- Through the Jooble normalization, the salary_max column is a raw
copy of salary_min cleaned by the identical function, so the two cells
agree on every output row. -/
theorem joobleTransform_salary_eq (recs : List Rec) (df : DF)
    (h : joobleTransform recs = .ok df) :
    ∀ r ∈ df.rows, getCell r "salary_max" = getCell r "salary_min" := by
  unfold joobleTransform at h
  obtain ⟨df1, h1, h⟩ := bind_ok_inv h
  obtain ⟨df2, h2, h⟩ := bind_ok_inv h
  obtain ⟨df3, h3, h⟩ := bind_ok_inv h
  obtain ⟨df5, h4, h⟩ := bind_ok_inv h
  cases h
  obtain ⟨hsrc, h1cols, h1rows⟩ := copyCol_ok _ _ _ _ h1
  have hP1 : ∀ r ∈ df1.rows, getCell r "salary_max" = getCell r "salary_min" := by
    intro r hr
    rw [h1rows] at hr
    simp only [List.mem_map] at hr
    obtain ⟨r0, _, rfl⟩ := hr
    rw [getCell_setCell_self,
      getCell_setCell_ne _ _ _ _ (by decide : ("salary_min" : String) ≠ "salary_max")]
  obtain ⟨h2cols, _, h2rel⟩ := applyColE_ok _ _ _ _ h2
  have hQ2 : ∀ r ∈ df2.rows, ∃ u, getCell r "salary_max" = u ∧
      joobleCleanSalary u = .ok (getCell r "salary_min") := by
    refine forall₂_transfer h2rel hP1 ?_
    intro r1 r2 hp hrel
    obtain ⟨v, hv, rfl⟩ := hrel
    refine ⟨getCell r1 "salary_min", ?_, ?_⟩
    · rw [getCell_setCell_ne _ _ _ _ (by decide : ("salary_max" : String) ≠ "salary_min")]
      exact hp
    · rw [getCell_setCell_self]
      exact hv
  obtain ⟨h3cols, _, h3rel⟩ := applyColE_ok _ _ _ _ h3
  have hP3 : ∀ r ∈ df3.rows, getCell r "salary_max" = getCell r "salary_min" := by
    refine forall₂_transfer h3rel hQ2 ?_
    intro r2 r3 hq hrel
    obtain ⟨w, hw, rfl⟩ := hrel
    obtain ⟨u, hu, hfu⟩ := hq
    rw [hu] at hw
    rw [hw] at hfu
    have hwm : w = getCell r2 "salary_min" := Except.ok.inj hfu
    rw [getCell_setCell_self,
      getCell_setCell_ne _ _ _ _ (by decide : ("salary_min" : String) ≠ "salary_max")]
    exact hwm
  have hmin1 : "salary_min" ∈ df1.cols := by
    rw [h1cols]
    by_cases hm : "salary_max" ∈ ((DF.ofRecords recs).rename joobleRename).cols
    · rw [if_pos hm]
      exact hsrc
    · rw [if_neg hm]
      exact List.mem_append_left _ hsrc
  have hmax1 : "salary_max" ∈ df1.cols := by
    rw [h1cols]
    by_cases hm : "salary_max" ∈ ((DF.ofRecords recs).rename joobleRename).cols
    · rw [if_pos hm]
      exact hm
    · rw [if_neg hm]
      exact List.mem_append_right _ (List.mem_singleton_self _)
  have hmin3 : "salary_min" ∈ df3.cols := by rw [h3cols, h2cols]; exact hmin1
  have hmax3 : "salary_max" ∈ df3.cols := by rw [h3cols, h2cols]; exact hmax1
  obtain ⟨_, _, hP4⟩ :=
    ensureCols_cell_eq joobleRequiredCols df3 "salary_max" "salary_min" hmax3 hmin3 hP3
  obtain ⟨_, hsel_rows⟩ := select_ok _ _ _ h4
  intro r hr
  rw [hsel_rows] at hr
  simp only [List.mem_map] at hr
  obtain ⟨r4, hr4, rfl⟩ := hr
  rw [getCell_graph _ _ _ (by decide : "salary_max" ∈ joobleRequiredCols),
      getCell_graph _ _ _ (by decide : "salary_min" ∈ joobleRequiredCols)]
  exact hP4 r4 hr4

/-- C10: after Jooble normalization, salary_max always equals
salary_min: both are derived from the same provider salary string by
the same leading-numeric-token extraction. -/
theorem claim_C10_jooble_salary_range_collapses :
    ∀ net df, fetch_jooble_data net = .ok df →
      ∀ r ∈ df.rows, getCell r "salary_max" = getCell r "salary_min" := by
  intro net df h
  unfold fetch_jooble_data at h
  match net with
  | .transportError msg =>
      cases h
      intro r hr
      cases hr
  | .gotResponse resp =>
      dsimp only at h
      by_cases hs : raisesForStatus resp.status
      · rw [if_pos hs] at h
        cases h
        intro r hr
        cases hr
      · rw [if_neg hs] at h
        obtain ⟨jobs, hjobs, h⟩ := bind_ok_inv h
        by_cases ht : !pyTruthy jobs
        · rw [if_pos ht] at h
          cases h
          intro r hr
          cases hr
        · rw [if_neg ht] at h
          exact joobleTransform_salary_eq _ _ h

/-- Witness for C10 at a concrete fetched frame. -/
theorem claim_C10_jooble_salary_range_collapses_witness :
    getCell c10row "salary_max" = getCell c10row "salary_min" :=
  claim_C10_jooble_salary_range_collapses c10net c10df (by decide) c10row
    (by decide)

/-- After an idempotent creation on a well-formed connection, the
pending table rows are the committed rows. -/
theorem createTableIfAbsent_rows (key : String) (conn : Conn)
    (hwf : conn.committed = conn.pending)
    (hfresh : conn.pending.tableExists = false → conn.pending.rows = []) :
    (createTableIfAbsent key conn.pending).rows = conn.committed.rows := by
  unfold createTableIfAbsent
  by_cases he : conn.pending.tableExists
  · rw [if_pos he, hwf]
  · rw [if_neg he]
    have h0 : conn.pending.rows = [] := hfresh (by simpa using he)
    rw [hwf, h0]

/-- The generic load body never commits a partial batch: the committed
rows after the call are either unchanged or the full merged batch; the
MERGE is attempted at most once; and a SQL failure leaves the committed
rows unchanged with a rollback in the trace. -/
theorem loadStep_spec (checkEmpty : Bool) (key : String)
    (prepare : DF → Except PyErr (List Rec)) (df : DF) (conn : Conn)
    (env : SqlEnv) (hwf : conn.committed = conn.pending)
    (hfresh : conn.pending.tableExists = false → conn.pending.rows = []) :
    ((loadStep checkEmpty key prepare df conn env).1.committed.rows =
        conn.committed.rows ∨
      ∃ batch, prepare df = .ok batch ∧
        (loadStep checkEmpty key prepare df conn env).1.committed.rows =
          mergeRows key conn.committed.rows batch) ∧
    (loadStep checkEmpty key prepare df conn env).2.2.count .evExecMerge ≤ 1 ∧
    ((loadStep checkEmpty key prepare df conn env).2.1 = .sqlError →
      (loadStep checkEmpty key prepare df conn env).1.committed.rows =
        conn.committed.rows ∧
      .evRollback ∈ (loadStep checkEmpty key prepare df conn env).2.2) := by
  have hct := createTableIfAbsent_rows key conn hwf hfresh
  unfold loadStep
  split
  · exact ⟨Or.inl rfl, by simp, fun hout => absurd hout (by simp)⟩
  · split
    · exact ⟨Or.inl rfl, by simp, fun _ => ⟨rfl, by simp⟩⟩
    · split
      · exact ⟨Or.inl hct, by simp, fun _ => ⟨hct, by simp⟩⟩
      · split
        · exact ⟨Or.inl hct, by simp [List.count_cons], fun _ => ⟨hct, by simp⟩⟩
        · refine ⟨Or.inr ⟨_, by assumption, ?_⟩, by simp [List.count_cons],
            fun hout => absurd hout (by simp)⟩
          show mergeRows key (createTableIfAbsent key conn.pending).rows _ =
            mergeRows key conn.committed.rows _
          rw [hct]

/-- When the table is fresh and its creation succeeds, the committed
table ends keyed by the column named in the CREATE TABLE statement. -/
theorem loadStep_keyCol (checkEmpty : Bool) (key : String)
    (prepare : DF → Except PyErr (List Rec)) (df : DF) (conn : Conn)
    (env : SqlEnv) (hta : conn.pending.tableExists = false)
    (hcf : env.createFails = false)
    (hne : (checkEmpty && df.isEmpty) = false) :
    (loadStep checkEmpty key prepare df conn env).1.committed.keyCol = key := by
  unfold loadStep
  rw [if_neg (by simp [hne]), if_neg (by simp [hcf])]
  have hck : createTableIfAbsent key conn.pending = ⟨true, key, []⟩ := by
    unfold createTableIfAbsent
    rw [if_neg (by simp [hta])]
  split
  · show (createTableIfAbsent key conn.pending).keyCol = key
    rw [hck]
  · split
    · show (createTableIfAbsent key conn.pending).keyCol = key
      rw [hck]
    · show (createTableIfAbsent key conn.pending).keyCol = key
      rw [hck]

/-- C4: for every provider load step, on a well-formed connection any
failure of the table creation or the upsert is caught (the function
returns normally by type), the whole batch is rolled back with no
partial commit (committed rows are all-or-nothing), a failure leaves a
rollback in the trace, and the MERGE is never attempted twice. -/
theorem claim_C4_load_failure_handling :
    (∀ df conn env, conn.committed = conn.pending →
      (conn.pending.tableExists = false → conn.pending.rows = []) →
      ((load_adzuna_to_sql df conn env).1.committed.rows = conn.committed.rows ∨
        ∃ batch, adzunaPrepare df = .ok batch ∧
          (load_adzuna_to_sql df conn env).1.committed.rows =
            mergeRows "unique_job_id" conn.committed.rows batch) ∧
      (load_adzuna_to_sql df conn env).2.2.count .evExecMerge ≤ 1 ∧
      ((load_adzuna_to_sql df conn env).2.1 = .sqlError →
        (load_adzuna_to_sql df conn env).1.committed.rows = conn.committed.rows ∧
        .evRollback ∈ (load_adzuna_to_sql df conn env).2.2)) ∧
    (∀ df conn env, conn.committed = conn.pending →
      (conn.pending.tableExists = false → conn.pending.rows = []) →
      ((load_jooble_to_sql df conn env).1.committed.rows = conn.committed.rows ∨
        ∃ batch, jooblePrepare df = .ok batch ∧
          (load_jooble_to_sql df conn env).1.committed.rows =
            mergeRows "unique_job_id" conn.committed.rows batch) ∧
      (load_jooble_to_sql df conn env).2.2.count .evExecMerge ≤ 1 ∧
      ((load_jooble_to_sql df conn env).2.1 = .sqlError →
        (load_jooble_to_sql df conn env).1.committed.rows = conn.committed.rows ∧
        .evRollback ∈ (load_jooble_to_sql df conn env).2.2)) ∧
    (∀ df conn env, conn.committed = conn.pending →
      (conn.pending.tableExists = false → conn.pending.rows = []) →
      ((load_data_to_sql df conn env).1.committed.rows = conn.committed.rows ∨
        ∃ batch, remoteokPrepare df = .ok batch ∧
          (load_data_to_sql df conn env).1.committed.rows =
            mergeRows "id" conn.committed.rows batch) ∧
      (load_data_to_sql df conn env).2.2.count .evExecMerge ≤ 1 ∧
      ((load_data_to_sql df conn env).2.1 = .sqlError →
        (load_data_to_sql df conn env).1.committed.rows = conn.committed.rows ∧
        .evRollback ∈ (load_data_to_sql df conn env).2.2)) :=
  ⟨fun df conn env h1 h2 => loadStep_spec true "unique_job_id" adzunaPrepare df conn env h1 h2,
   fun df conn env h1 h2 => loadStep_spec true "unique_job_id" jooblePrepare df conn env h1 h2,
   fun df conn env h1 h2 => loadStep_spec false "id" remoteokPrepare df conn env h1 h2⟩

/-- Witness for C4: a one-row RemoteOK load whose upsert fails is rolled
back on a concrete fresh connection. -/
theorem claim_C4_load_failure_handling_witness :
    ((load_data_to_sql c4df connInit c4sqlFail).1.committed.rows =
        connInit.committed.rows ∨
      ∃ batch, remoteokPrepare c4df = .ok batch ∧
        (load_data_to_sql c4df connInit c4sqlFail).1.committed.rows =
          mergeRows "id" connInit.committed.rows batch) ∧
    (load_data_to_sql c4df connInit c4sqlFail).2.2.count .evExecMerge ≤ 1 ∧
    ((load_data_to_sql c4df connInit c4sqlFail).2.1 = .sqlError →
      (load_data_to_sql c4df connInit c4sqlFail).1.committed.rows =
        connInit.committed.rows ∧
      .evRollback ∈ (load_data_to_sql c4df connInit c4sqlFail).2.2) :=
  claim_C4_load_failure_handling.2.2 c4df connInit c4sqlFail rfl (fun _ => rfl)

/-- When the table is fresh, its creation succeeds and the upsert does
not fail, the committed rows are exactly the prepared batch merged into
the (empty) created table. -/
theorem loadStep_success (checkEmpty : Bool) (key : String)
    (prepare : DF → Except PyErr (List Rec)) (df : DF) (conn : Conn)
    (env : SqlEnv) (hcf : env.createFails = false)
    (hup : env.upsertFailsAt = none)
    (hne : (checkEmpty && df.isEmpty) = false)
    (batch : List Rec) (hprep : prepare df = .ok batch) :
    (loadStep checkEmpty key prepare df conn env).1.committed.rows =
      mergeRows key (createTableIfAbsent key conn.pending).rows batch := by
  unfold loadStep
  rw [if_neg (by simp [hne]), if_neg (by simp [hcf]), hprep, hup]
  rfl

/-- C2 fails as stated: the RemoteOK pipeline keys its table by the
provider-supplied id column; on a concrete feed the committed row is
keyed by the provider id 123, which is not the hex surrogate key of its
(company, position, location) triple. -/
theorem claim_C2_counterexample :
    (remoteokMain envRokOk).2.1.committed.keyCol = "id" ∧
    (remoteokMain envRokOk).2.1.committed.rows.map (fun r => getCell r "id") =
      [.vStr "123"] ∧
    "123" ≠ surrogateKey "Acme" "Engineer" "Remote" := by
  exact ⟨by decide, by decide, by decide⟩

/-- C2 amended: the Adzuna and Jooble loads key their tables by the
derived unique_job_id column whose value is always the hex surrogate
key of the row fields; the RemoteOK load instead keys its table by the
id column and merges the incoming rows as they are, so its primary key
carries the provider-supplied identifier. -/
theorem claim_C2_amended :
    (∀ df conn env, conn.pending.tableExists = false →
      env.createFails = false → df.isEmpty = false →
      (load_adzuna_to_sql df conn env).1.committed.keyCol = "unique_job_id") ∧
    (∀ df conn env, conn.pending.tableExists = false →
      env.createFails = false → df.isEmpty = false →
      (load_jooble_to_sql df conn env).1.committed.keyCol = "unique_job_id") ∧
    (∀ df conn env, conn.pending.tableExists = false →
      env.createFails = false →
      (load_data_to_sql df conn env).1.committed.keyCol = "id") ∧
    (∀ df df', assignUniqueJobId df = .ok df' → ∀ r' ∈ df'.rows,
      getCell r' "unique_job_id" =
        .vStr (surrogateKey (pyStr (getCell r' "company"))
          (pyStr (getCell r' "position")) (pyStr (getCell r' "location")))) ∧
    (∀ df conn env, env.createFails = false → env.upsertFailsAt = none →
      (load_data_to_sql df conn env).1.committed.rows =
        mergeRows "id" (createTableIfAbsent "id" conn.pending).rows df.rows) := by
  refine ⟨?_, ?_, ?_, assignUniqueJobId_key, ?_⟩
  · intro df conn env h1 h2 h3
    exact loadStep_keyCol true "unique_job_id" adzunaPrepare df conn env h1 h2
      (by simp [h3])
  · intro df conn env h1 h2 h3
    exact loadStep_keyCol true "unique_job_id" jooblePrepare df conn env h1 h2
      (by simp [h3])
  · intro df conn env h1 h2
    exact loadStep_keyCol false "id" remoteokPrepare df conn env h1 h2 rfl
  · intro df conn env h1 h2
    exact loadStep_success false "id" remoteokPrepare df conn env h1 h2 rfl
      df.rows rfl

/-- Witness for C2 amended: the RemoteOK load on a concrete fresh
connection ends keyed by id with exactly the incoming row. -/
theorem claim_C2_amended_witness :
    (load_data_to_sql c4df connInit sqlOk).1.committed.keyCol = "id" ∧
    (load_data_to_sql c4df connInit sqlOk).1.committed.rows =
      mergeRows "id" (createTableIfAbsent "id" connInit.pending).rows c4df.rows :=
  ⟨claim_C2_amended.2.2.1 c4df connInit sqlOk rfl rfl,
   claim_C2_amended.2.2.2.2 c4df connInit sqlOk rfl rfl⟩

/-- C8 is the intended behavior but the Adzuna code breaks it: on a
provider response listing zero jobs the fetch returns an empty frame,
and main then crashes with an uncaught KeyError when reading the
date_posted column of the empty frame (Adzuna.py line 172), before the
empty-frame guard of the load is ever reached; no database write
occurs. Jooble catches the same KeyError (printing a misleading
message) and RemoteOK halts, both without writing. -/
theorem claim_C8_empty_response :
    adzunaMain c8envAdz =
      ([.evConfigRead, .evDbConnect, .evNet, .evCloseConn], connInit,
       .crashed (.keyError "date_posted")) ∧
    load_adzuna_to_sql DF.emptyDF connInit sqlOk = (connInit, .skippedEmpty, []) ∧
    joobleMain c8envJoo =
      ([.evConfigRead, .evDbConnect, .evNet, .evCloseConn], connInit, .finished) ∧
    remoteokMain c8envRok = ([.evNet], connInit, .finished) := by
  exact ⟨by decide, by decide, by decide, by decide⟩

/-- C5 fails as stated: the RemoteOK run fetches over the network first;
with a missing configuration file the trace still begins with the
network call, and the config error surfaces only afterwards (as an
uncaught KeyError), so a configuration error does not abort before
network activity. -/
theorem claim_C5_counterexample :
    envRokNoConfig.config ≠ .configOk ∧
    (remoteokMain envRokNoConfig).1 = [.evNet, .evConfigRead] ∧
    (remoteokMain envRokNoConfig).2.2 = .crashed (.keyError "database") := by
  exact ⟨by decide, by decide, by decide⟩

/-- C5 amended: Adzuna and Jooble runs follow the linear order
LOAD_CONFIG, CONNECT_DB, FETCH, then the load phase, with the close
always last once a connection was opened, and a configuration error
aborts them before any network or database activity; the RemoteOK run
instead performs FETCH (and normalization) first, so its configuration
error surfaces only after network activity, though still before any
database activity. -/
theorem claim_C5_amended :
    (∀ env : Env, env.config ≠ .configOk →
        adzunaMain env = ([.evConfigRead], env.conn0, .finished)) ∧
    (∀ env : Env, env.config ≠ .configOk →
        joobleMain env = ([.evConfigRead], env.conn0, .finished)) ∧
    (∀ env : Env, env.config = .configOk → env.dbOk = true →
        ∃ evs, (adzunaMain env).1 =
          [.evConfigRead, .evDbConnect, .evNet] ++ evs ++ [.evCloseConn]) ∧
    (∀ env : Env, env.config = .configOk → env.dbOk = true →
        ∃ evs, (joobleMain env).1 =
          [.evConfigRead, .evDbConnect, .evNet] ++ evs ++ [.evCloseConn]) ∧
    (∀ env : Env, (remoteokMain env).1.head? = some .evNet) ∧
    (∀ env : Env, env.config ≠ .configOk →
        (remoteokMain env).1 = [.evNet] ∨
        (remoteokMain env).1 = [.evNet, .evConfigRead]) := by
  refine ⟨?_, ?_, ?_, ?_, ?_, ?_⟩
  · intro env h
    unfold adzunaMain
    rw [if_pos h]
  · intro env h
    unfold joobleMain
    rw [if_pos h]
  · intro env h hdb
    unfold adzunaMain
    rw [if_neg (by simp [h]), if_neg (by simp [hdb])]
    cases hf : fetch_adzuna_data env.net with
    | error e => exact ⟨[], rfl⟩
    | ok df =>
        dsimp only
        cases hdc : df.applyCol "date_posted" toDatetimeCoerce with
        | error e => exact ⟨[], rfl⟩
        | ok df2 =>
            exact ⟨(load_adzuna_to_sql df2 env.conn0 env.sql).2.2, rfl⟩
  · intro env h hdb
    unfold joobleMain
    rw [if_neg (by simp [h]), if_neg (by simp [hdb])]
    cases hf : fetch_jooble_data env.net with
    | error e =>
        cases e with
        | keyError k => exact ⟨[], rfl⟩
        | valueError m => exact ⟨[], rfl⟩
        | attrError m => exact ⟨[], rfl⟩
    | ok df =>
        dsimp only
        cases hdc : df.applyCol "date_posted" toDatetimeCoerce with
        | error e =>
            cases e with
            | keyError k => exact ⟨[], rfl⟩
            | valueError m => exact ⟨[], rfl⟩
            | attrError m => exact ⟨[], rfl⟩
        | ok df2 =>
            exact ⟨(load_jooble_to_sql df2 env.conn0 env.sql).2.2, rfl⟩
  · intro env
    unfold remoteokMain
    cases hf : fetch_remoteok_data env.net with
    | error e => rfl
    | ok o =>
        cases o with
        | none => rfl
        | some df =>
            dsimp only
            by_cases hde : df.isEmpty
            · rw [if_pos hde]
              rfl
            · rw [if_neg hde]
              cases hres : (remoteokGetDbConnection env.config env.dbOk).1 with
              | error e => rfl
              | ok oc =>
                  cases oc with
                  | none => rfl
                  | some u => rfl
  · intro env h
    unfold remoteokMain
    cases hf : fetch_remoteok_data env.net with
    | error e => exact Or.inl rfl
    | ok o =>
        cases o with
        | none => exact Or.inl rfl
        | some df =>
            dsimp only
            by_cases hde : df.isEmpty
            · rw [if_pos hde]
              exact Or.inl rfl
            · rw [if_neg hde]
              cases hc : env.config with
              | configOk => exact absurd hc h
              | missingFile => exact Or.inr rfl
              | malformed => exact Or.inr rfl

/-- Witness for C5 amended at concrete environments: a malformed config
stops Adzuna with only the config-read event, and a connected Adzuna
run with a refused network connection still closes last. -/
theorem claim_C5_amended_witness :
    adzunaMain c5envAdzBad = ([.evConfigRead], c5envAdzBad.conn0, .finished) ∧
    (∃ evs, (adzunaMain c5envAdzOk).1 =
      [.evConfigRead, .evDbConnect, .evNet] ++ evs ++ [.evCloseConn]) :=
  ⟨claim_C5_amended.1 c5envAdzBad (by decide),
   claim_C5_amended.2.2.1 c5envAdzOk (by decide) (by decide)⟩

end DEProj
